import Mathlib

/-
Shallow embedding of the `camera_feed` repository:
`src/camera_feed_server.py` (camera acquisition, the MJPEG frame-generation
loop, the multipart framing, and the argparse configuration) and
`src/stream.py` (the orchestration entry point, `stream` mode).

External library calls (`cv2.VideoCapture`, `cv2.resize`, `cv2.imencode`,
`time.time`, `time.sleep`) are modelled as explicit parameters or inputs:
the environment supplies the outcome of each device open, each device read
(with the wall-clock time observed at the top of that loop iteration), and
the behaviour of the resize and encode functions.  Wall-clock time is
modelled with rationals; `time.sleep d` is assumed to advance the clock by
exactly `d`.
-/

set_option autoImplicit false

namespace CameraFeed

/-! ### Bytes and multipart framing

`generate_frames` (camera_feed_server.py, lines 152-154) yields
`b"--frame\r\n" b"Content-Type: image/jpeg\r\n\r\n" + frame_bytes + b"\r\n"`
for each encoded frame.  Byte strings are modelled as lists of naturals
(code points of the ASCII literals). -/

abbrev Bytes := List Nat

/-- The bytes of an ASCII string literal. -/
def strBytes (s : String) : Bytes := s.toList.map Char.toNat

/-- The fixed per-part header emitted before every JPEG payload:
boundary marker, CRLF, Content-Type header line, CRLF, blank line. -/
def multipartHeader : Bytes := strBytes "--frame\r\nContent-Type: image/jpeg\r\n\r\n"

/-- CRLF, the trailing line terminator of every emitted part. -/
def crlf : Bytes := strBytes "\r\n"

/-- One multipart segment as yielded at lines 153-154 of
camera_feed_server.py. -/
def mkSegment (jpeg : Bytes) : Bytes := multipartHeader ++ jpeg ++ crlf

/-! ### Camera acquisition (`get_camera`, lines 70-99)

`cv2.VideoCapture` handles are modelled by a record carrying the device
identifier, the opened flag that `isOpened()` reports, and the buffer size
set via `camera.set(cv2.CAP_PROP_BUFFERSIZE, 1)`.  The global variable
`camera` is an `Option VideoCapture` threaded explicitly.  The outcome of
the `cv2.VideoCapture(DEVICE)` constructor call is an input
(`openDevice`): the environment decides whether the device opens. -/

/-- A device identifier: numeric index or device-path string
(camera_feed_server.py, lines 229-232). -/
abbrev DeviceId := Int ⊕ String

/-- Model of a `cv2.VideoCapture` object. -/
structure VideoCapture where
  device : DeviceId
  opened : Bool
  bufferSize : Option Nat
  deriving DecidableEq, Repr

/-- The handle `cv2.VideoCapture(d)` returns when the device cannot be
opened: `isOpened()` is false, no properties were set. -/
def deadCapture (d : DeviceId) : VideoCapture := ⟨d, false, none⟩

/-- The error raised at line 79:
`RuntimeError(f"Could not open camera device {DEVICE}")` —
the spec names it `DeviceOpenError`. -/
inductive CamError where
  | deviceOpenFailed (device : DeviceId)
  deriving DecidableEq, Repr

/-- The full outcome of one `get_camera()` call: the returned handle or
the raised error, the value of the global `camera` afterwards, and how
many times `cv2.VideoCapture` was constructed during the call. -/
structure AcquireResult where
  result : Except CamError VideoCapture
  cameraAfter : Option VideoCapture
  opensPerformed : Nat
  deriving Repr

/-- `get_camera()` (camera_feed_server.py, lines 70-99).  `openDevice` is
the handle the `cv2.VideoCapture(DEVICE)` constructor would produce on
this call; `camera` is the global before the call.  Note the source
assigns the global `camera` at line 75, before the `isOpened()` check at
line 77, so the error path leaves the global set to the dead handle. -/
def get_camera (openDevice : VideoCapture) (camera : Option VideoCapture) :
    AcquireResult :=
  match camera with
  | some cam => ⟨.ok cam, some cam, 0⟩
  | none =>
    let cam := openDevice
    if cam.opened then
      let cam' := { cam with bufferSize := some 1 }
      ⟨.ok cam', some cam', 1⟩
    else
      ⟨.error (.deviceOpenFailed cam.device), some cam, 1⟩

/-! ### The frame-generation loop (`generate_frames`, lines 101-154)

Each iteration of the `while True` loop: FPS pacing (lines 113-120), a
blocking device read (line 122, `break` on failure), frame-counter
increment (line 127), resize (line 139), JPEG encode (line 142,
`continue` on failure), and the multipart yield (lines 153-154).

The loop is driven by a trace: a finite list of loop iterations, each
carrying the wall-clock time `time.time()` observed at the top of the
iteration and the outcome of `cam.read()` for that iteration.  A finite
trace is an observation prefix of the infinite loop. -/

/-- Outcome of one `cam.read()` call: `(success, frame)`. -/
inductive ReadResult (Frame : Type) where
  | ok (frame : Frame)
  | fail

/-- The FPS-pacing step (lines 113-120) for one iteration.  Inputs: the
configured cap (`FPS_LIMIT`), `last_frame_time`, and the current clock
`t`.  Returns the sleep duration requested and the new
`last_frame_time`.  Python's `if FPS_LIMIT:` guard is truthiness: `None`
and `0` both skip the pacing block, leaving `last_frame_time`
unchanged.  `time.sleep d` advances the clock by `d`, so the
`last_frame_time = time.time()` at line 120 reads `t + d`. -/
def fpsPace (fpsLimit : Option ℚ) (lastFrameTime t : ℚ) : ℚ × ℚ :=
  match fpsLimit with
  | none => (0, lastFrameTime)
  | some F =>
    if F = 0 then (0, lastFrameTime)
    else
      let timeSinceLast := t - lastFrameTime
      let minFrameTime := 1 / F
      let sleepFor := if timeSinceLast < minFrameTime
                      then minFrameTime - timeSinceLast else 0
      (sleepFor, t + sleepFor)

/-- What one run of the generator over a finite trace produced: the
yielded multipart segments in order, the final `frame_count`, and the
total duration passed to `time.sleep` by the pacing code. -/
structure GenResult where
  segments : List Bytes
  frameCount : Nat
  totalSleep : ℚ
  deriving DecidableEq, Repr

/-- `generate_frames()` (lines 101-154) run over a finite iteration
trace.  `resize` models `cv2.resize(frame, (WIDTH, HEIGHT))`; `imencode`
models `cv2.imencode(".jpg", frame, [IMWRITE_JPEG_QUALITY, quality])`,
returning the buffer bytes on success.  State arguments mirror the local
variables `last_frame_time` (initially `0`, line 105) and `frame_count`
(initially `0`, line 106). -/
def generate_frames {Frame : Type} (fpsLimit : Option ℚ) (quality : Int)
    (resize : Frame → Frame) (imencode : Int → Frame → Option Bytes) :
    List (ℚ × ReadResult Frame) → ℚ → Nat → GenResult
  | [], _, frameCount => ⟨[], frameCount, 0⟩
  | (t, r) :: rest, lastFrameTime, frameCount =>
    let p := fpsPace fpsLimit lastFrameTime t
    match r with
    | .fail => ⟨[], frameCount, p.1⟩
    | .ok frame =>
      let res := generate_frames fpsLimit quality resize imencode
                   rest p.2 (frameCount + 1)
      match imencode quality (resize frame) with
      | none => ⟨res.segments, res.frameCount, p.1 + res.totalSleep⟩
      | some buf =>
        ⟨mkSegment buf :: res.segments, res.frameCount, p.1 + res.totalSleep⟩

/-- The frames of the successful reads the loop consumes before the first
failed read (or the end of the trace): exactly the frames whose read
increments `frame_count`. -/
def consumedFrames {Frame : Type} : List (ℚ × ReadResult Frame) → List Frame
  | [] => []
  | (_, .fail) :: _ => []
  | (_, .ok f) :: rest => f :: consumedFrames rest

/-! ### Process configuration (`__main__`, lines 174-237)

The argparse declaration (lines 176-193) and the assignment of the module
globals `DEVICE`, `QUALITY`, `WIDTH`, `HEIGHT`, `FPS_LIMIT` (lines
229-237).  A command line is modelled by which options were supplied;
argparse substitutes the declared default for an absent option.  argparse
performs no range validation on any of the numeric options. -/

/-- The options supplied on the command line; `none` means the option was
not given.  `--debug` and `--list-devices` are store-true flags. -/
structure CmdLine where
  device : Option String
  port : Option Int
  host : Option String
  quality : Option Int
  width : Option Int
  height : Option Int
  fps : Option Int
  debug : Bool
  deriving DecidableEq, Repr

/-- The empty command line: no option supplied. -/
def emptyCmdLine : CmdLine := ⟨none, none, none, none, none, none, none, false⟩

/-- The parsed argparse namespace, after defaults (lines 176-193):
device "0", port 5000, host "0.0.0.0", quality 50, width 640, height 480,
fps None. -/
structure Args where
  device : String
  port : Int
  host : String
  quality : Int
  width : Int
  height : Int
  fps : Option Int
  debug : Bool
  deriving DecidableEq, Repr

/-- `parser.parse_args()`: substitute declared defaults for absent
options.  No option value is range-checked. -/
def parse_args (c : CmdLine) : Args :=
  ⟨c.device.getD "0", c.port.getD 5000, c.host.getD "0.0.0.0",
   c.quality.getD 50, c.width.getD 640, c.height.getD 480, c.fps, c.debug⟩

/-- Reads a run of decimal digits as a natural number; fails on the
first non-digit character. -/
def readDigits : List Char → Nat → Option Nat
  | [], acc => some acc
  | c :: cs, acc =>
    if c.isDigit then readDigits cs (10 * acc + (c.toNat - 48)) else none

/-- Python `int(s)` on the plain decimal forms an argparse string can
carry: an optional leading minus sign followed by at least one digit;
anything else raises `ValueError`, modelled as `none`. -/
def parseIntString (s : String) : Option Int :=
  match s.toList with
  | [] => none
  | ['-'] => none
  | '-' :: c :: cs => (readDigits (c :: cs) 0).map (fun n => -(n : Int))
  | cs => (readDigits cs 0).map (fun n => (n : Int))

/-- Lines 229-232: `DEVICE = int(args.device)` falling back to the raw
string on `ValueError`. -/
def parseDevice (s : String) : DeviceId :=
  match parseIntString s with
  | some n => .inl n
  | none => .inr s

/-- The module-global configuration after `__main__` ran (lines 198-237):
read once at start, never reassigned afterwards. -/
structure Config where
  device : DeviceId
  quality : Int
  width : Int
  height : Int
  fpsLimit : Option Int
  host : String
  port : Int
  debug : Bool
  deriving DecidableEq, Repr

/-- The configuration the server runs with for a given command line. -/
def mkConfig (c : CmdLine) : Config :=
  let a := parse_args c
  ⟨parseDevice a.device, a.quality, a.width, a.height, a.fps,
   a.host, a.port, a.debug⟩

/-! ### The orchestrator (`src/stream.py`)

Only the `stream` branch of `main` (lines 24-41) is modelled; it is the
subject of C10.  The branch first checks
`if not a.remote or not a.local: sys.exit("stream mode requires --remote
and --local")` and otherwise runs exactly two remote commands over ssh:
writing the wrapper script to the remote host, then executing it with
the destination URL as argument. -/

/-- The stream-mode arguments of stream.py (lines 10-13): `--remote`
(-r) and `--local` (-l) default to None, `--port` (-p) to "5000",
`--udp` (-u) is a store-true flag. -/
structure StreamArgs where
  remote : Option String
  localIp : Option String
  port : String
  udp : Bool
  deriving DecidableEq, Repr

/-- Python truthiness of an optional string: `None` and the empty string
are falsy. -/
def pyTruthy : Option String → Bool
  | none => false
  | some s => s != ""

/-- A remote command issued by stream mode, abstracted to its kind, host
and arguments (the fixed wrapper-script text is platform glue carried
verbatim from lines 32-37 and not modelled byte-for-byte). -/
inductive Cmd where
  | sshWriteWrapper (host script : String)
  | sshExec (host script destination : String)
  deriving DecidableEq, Repr

/-- What the stream branch does: exit with an error message, or run a
list of commands in order. -/
inductive RunOutcome where
  | exitError (msg : String)
  | commands (cmds : List Cmd)
  deriving DecidableEq, Repr

/-- Line 27: the path the wrapper script is written to on the remote. -/
def remoteScriptPath : String := "/var/tmp/remote_camera_script.sh"

/-- The `stream` branch of `main` in stream.py (lines 24-41). -/
def stream_mode (a : StreamArgs) : RunOutcome :=
  if !pyTruthy a.remote || !pyTruthy a.localIp then
    .exitError "stream mode requires --remote and --local"
  else
    let proto := if a.udp then "udp" else "tcp"
    let destination := proto ++ "://" ++ a.localIp.getD "" ++ ":" ++ a.port
    .commands [.sshWriteWrapper (a.remote.getD "") remoteScriptPath,
               .sshExec (a.remote.getD "") remoteScriptPath destination]

/-! ### Structural lemmas about the loop -/

/-- The segments a run emits are exactly the successful encodings of the
consumed frames, each wrapped in the multipart framing, in order;
in particular they depend neither on the FPS cap nor on the incoming
`last_frame_time` or `frame_count`. -/
theorem generate_frames_segments {Frame : Type} (fpsLimit : Option ℚ)
    (quality : Int) (resize : Frame → Frame)
    (imencode : Int → Frame → Option Bytes) :
    ∀ (trace : List (ℚ × ReadResult Frame)) (last : ℚ) (count : Nat),
      (generate_frames fpsLimit quality resize imencode trace last count).segments
        = (consumedFrames trace).filterMap
            (fun f => (imencode quality (resize f)).map mkSegment) := by
  intro trace
  induction trace with
  | nil => intro last count; rfl
  | cons hd tl ih =>
    intro last count
    obtain ⟨t, r⟩ := hd
    cases r with
    | fail => simp [generate_frames, consumedFrames]
    | ok f =>
      simp only [generate_frames, consumedFrames, List.filterMap_cons]
      cases h : imencode quality (resize f) with
      | none => simp [h, ih]
      | some buf => simp [h, ih]

/-- The final `frame_count` is the incoming count plus the number of
consumed (successfully read) frames, independent of encode outcomes. -/
theorem generate_frames_frameCount {Frame : Type} (fpsLimit : Option ℚ)
    (quality : Int) (resize : Frame → Frame)
    (imencode : Int → Frame → Option Bytes) :
    ∀ (trace : List (ℚ × ReadResult Frame)) (last : ℚ) (count : Nat),
      (generate_frames fpsLimit quality resize imencode trace last count).frameCount
        = count + (consumedFrames trace).length := by
  intro trace
  induction trace with
  | nil => intro last count; rfl
  | cons hd tl ih =>
    intro last count
    obtain ⟨t, r⟩ := hd
    cases r with
    | fail => simp [generate_frames, consumedFrames]
    | ok f =>
      simp only [generate_frames, consumedFrames, List.length_cons]
      cases h : imencode quality (resize f) with
      | none => simp [h, ih]; omega
      | some buf => simp [h, ih]; omega

/-- Everything after the first failed read is ignored: the run over a
trace whose read fails at some point equals the run over the trace
truncated right after that failed read. -/
theorem generate_frames_break {Frame : Type} (fpsLimit : Option ℚ)
    (quality : Int) (resize : Frame → Frame)
    (imencode : Int → Frame → Option Bytes) :
    ∀ (pre : List (ℚ × ReadResult Frame)) (t : ℚ)
      (rest : List (ℚ × ReadResult Frame)) (last : ℚ) (count : Nat),
      generate_frames fpsLimit quality resize imencode
          (pre ++ (t, ReadResult.fail) :: rest) last count
        = generate_frames fpsLimit quality resize imencode
            (pre ++ [(t, ReadResult.fail)]) last count := by
  intro pre
  induction pre with
  | nil => intro t rest last count; rfl
  | cons hd tl ih =>
    intro t rest last count
    obtain ⟨t0, r0⟩ := hd
    cases r0 with
    | fail => rfl
    | ok f =>
      simp only [List.cons_append, generate_frames, List.append_eq]
      rw [ih]

/-- With no FPS cap configured (`FPS_LIMIT = None`), the loop never
sleeps. -/
theorem generate_frames_totalSleep_none {Frame : Type} (quality : Int)
    (resize : Frame → Frame) (imencode : Int → Frame → Option Bytes) :
    ∀ (trace : List (ℚ × ReadResult Frame)) (last : ℚ) (count : Nat),
      (generate_frames none quality resize imencode trace last count).totalSleep
        = 0 := by
  intro trace
  induction trace with
  | nil => intro last count; rfl
  | cons hd tl ih =>
    intro last count
    obtain ⟨t, r⟩ := hd
    cases r with
    | fail => simp [generate_frames, fpsPace]
    | ok f =>
      simp only [generate_frames]
      cases h : imencode quality (resize f) with
      | none => simp [h, ih, fpsPace]
      | some buf => simp [h, ih, fpsPace]

/-- A `filterMap` keeps the full length exactly when the function
succeeds on every element. -/
theorem length_filterMap_eq_iff {α β : Type} (g : α → Option β)
    (l : List α) :
    (l.filterMap g).length = l.length ↔ ∀ a ∈ l, (g a).isSome := by
  induction l with
  | nil => simp
  | cons a l ih =>
    cases h : g a with
    | none =>
      simp only [List.filterMap_cons, h, List.length_cons]
      constructor
      · intro hlen
        exfalso
        have hle := List.length_filterMap_le g l
        omega
      · intro hall
        exfalso
        have := hall a (List.mem_cons_self a l)
        simp [h] at this
    | some b =>
      simp only [List.filterMap_cons, h, List.length_cons]
      constructor
      · intro hlen
        intro a' ha'
        rcases List.mem_cons.mp ha' with rfl | hmem
        · simp [h]
        · exact (ih.mp (by omega)) a' hmem
      · intro hall
        have : (l.filterMap g).length = l.length :=
          ih.mpr (fun a' ha' => hall a' (List.mem_cons_of_mem a ha'))
        omega

/-- A trace of successful reads followed by a failed read consumes
exactly the successful frames. -/
theorem consumedFrames_oks_fail {Frame : Type} (oks : List (ℚ × Frame))
    (t : ℚ) (rest : List (ℚ × ReadResult Frame)) :
    consumedFrames (oks.map (fun p => (p.1, ReadResult.ok p.2))
        ++ (t, ReadResult.fail) :: rest)
      = oks.map Prod.snd := by
  induction oks with
  | nil => rfl
  | cons p tl ih => simp [consumedFrames, ih]

/-- Unfolding of the pacing step for a nonzero cap. -/
theorem fpsPace_some (F : ℚ) (hne : F ≠ 0) (last t : ℚ) :
    fpsPace (some F) last t
      = (if t - last < 1 / F then 1 / F - (t - last) else 0,
         t + (if t - last < 1 / F then 1 / F - (t - last) else 0)) := by
  simp [fpsPace, hne]

/-! ### Claim theorems -/

/-- C1: the claim says that when opening the capture device fails,
`get_camera` raises the open error AND the global handle remains absent
AND subsequent dependent operations fail fast.  The code contradicts the
last two parts: line 75 assigns the global `camera` before the
`isOpened()` check at line 77, so after a failed open the global holds
the dead (never-opened) handle, and a second `get_camera()` call returns
that dead handle successfully without re-attempting the open.  This
theorem evaluates the code at the failing input (device 0 busy, so the
constructor returns an unopened handle). -/
theorem open_failure_retains_dead_handle :
    (get_camera (deadCapture (Sum.inl 0)) none).result
        = Except.error (CamError.deviceOpenFailed (Sum.inl 0))
    ∧ (get_camera (deadCapture (Sum.inl 0)) none).cameraAfter
        = some (deadCapture (Sum.inl 0))
    ∧ (get_camera (deadCapture (Sum.inl 0)) none).cameraAfter ≠ none
    ∧ (get_camera (deadCapture (Sum.inl 0))
          ((get_camera (deadCapture (Sum.inl 0)) none).cameraAfter)).result
        = Except.ok (deadCapture (Sum.inl 0))
    ∧ (get_camera (deadCapture (Sum.inl 0))
          ((get_camera (deadCapture (Sum.inl 0)) none).cameraAfter)).opensPerformed
        = 0 :=
  ⟨rfl, rfl, by simp [get_camera, deadCapture], rfl, rfl⟩

/-- C2: every multipart segment the generator emits is exactly the
boundary marker, CRLF, the Content-Type header line, CRLF, a blank line,
the raw JPEG bytes of a successfully encoded consumed frame, and a
trailing CRLF, in that byte order. -/
theorem segment_format {Frame : Type} (fpsLimit : Option ℚ) (quality : Int)
    (resize : Frame → Frame) (imencode : Int → Frame → Option Bytes)
    (trace : List (ℚ × ReadResult Frame)) (last : ℚ) (count : Nat)
    (seg : Bytes)
    (hmem : seg ∈ (generate_frames fpsLimit quality resize imencode
                     trace last count).segments) :
    ∃ jpeg : Bytes,
      (∃ f ∈ consumedFrames trace, imencode quality (resize f) = some jpeg)
      ∧ seg = strBytes "--frame\r\nContent-Type: image/jpeg\r\n\r\n"
                ++ jpeg ++ strBytes "\r\n" := by
  rw [generate_frames_segments] at hmem
  rcases List.mem_filterMap.mp hmem with ⟨f, hf, hmap⟩
  cases h : imencode quality (resize f) with
  | none => rw [h] at hmap; simp at hmap
  | some jpeg =>
    rw [h] at hmap
    simp only [Option.map_some', Option.some.injEq] at hmap
    exact ⟨jpeg, ⟨f, hf, h⟩, hmap ▸ rfl⟩

/-- Witness for C2 at a concrete run: one frame read, identity resize,
an encoder returning the single byte 65. -/
theorem segment_format_witness :
    ∃ jpeg : Bytes,
      (∃ f ∈ consumedFrames [((0 : ℚ), ReadResult.ok (65 : Nat))],
          (fun (_ : Int) (f : Nat) => some [f]) 50 (id f) = some jpeg)
      ∧ mkSegment [65] = strBytes "--frame\r\nContent-Type: image/jpeg\r\n\r\n"
            ++ jpeg ++ strBytes "\r\n" :=
  segment_format none 50 id (fun _ f => some [f])
    [((0 : ℚ), ReadResult.ok 65)] 0 0 (mkSegment [65]) (by decide)

/-- C3: if the first `n` reads succeed (and their frames encode
successfully) and the next read fails, the generator emits exactly `n`
segments and then stops: everything after the failed read is never
consumed, and no exception is raised (the run is a total function of the
trace prefix ending at the failed read). -/
theorem read_failure_terminates {Frame : Type} (fpsLimit : Option ℚ)
    (quality : Int) (resize : Frame → Frame)
    (imencode : Int → Frame → Option Bytes)
    (oks : List (ℚ × Frame)) (t : ℚ) (rest : List (ℚ × ReadResult Frame))
    (henc : ∀ p ∈ oks, (imencode quality (resize p.2)).isSome) :
    (generate_frames fpsLimit quality resize imencode
        (oks.map (fun p => (p.1, ReadResult.ok p.2))
          ++ (t, ReadResult.fail) :: rest) 0 0).segments.length
      = oks.length
    ∧ generate_frames fpsLimit quality resize imencode
        (oks.map (fun p => (p.1, ReadResult.ok p.2))
          ++ (t, ReadResult.fail) :: rest) 0 0
      = generate_frames fpsLimit quality resize imencode
          (oks.map (fun p => (p.1, ReadResult.ok p.2))
            ++ [(t, ReadResult.fail)]) 0 0 := by
  have hcons := consumedFrames_oks_fail oks t rest
  constructor
  · rw [generate_frames_segments, hcons]
    have : ∀ f ∈ oks.map Prod.snd,
        ((imencode quality (resize f)).map mkSegment).isSome := by
      intro f hf
      rcases List.mem_map.mp hf with ⟨p, hp, rfl⟩
      have := henc p hp
      cases h : imencode quality (resize p.2) <;> simp [h] at this ⊢
    rw [(length_filterMap_eq_iff _ _).mpr this, List.length_map]
  · exact generate_frames_break fpsLimit quality resize imencode _ t rest 0 0

/-- Witness for C3 at the scenario from the spec: reads 1 and 2 succeed,
the 3rd read fails, so exactly 2 segments are emitted. -/
theorem read_failure_terminates_witness :
    (generate_frames none 50 id (fun (_ : Int) (f : Nat) => some [f])
        ([((0 : ℚ), (1 : Nat)), ((0 : ℚ), (2 : Nat))].map
            (fun p => (p.1, ReadResult.ok p.2))
          ++ ((0 : ℚ), ReadResult.fail) :: [((0 : ℚ), ReadResult.ok 3)])
        0 0).segments.length
      = [((0 : ℚ), (1 : Nat)), ((0 : ℚ), (2 : Nat))].length
    ∧ generate_frames none 50 id (fun (_ : Int) (f : Nat) => some [f])
        ([((0 : ℚ), (1 : Nat)), ((0 : ℚ), (2 : Nat))].map
            (fun p => (p.1, ReadResult.ok p.2))
          ++ ((0 : ℚ), ReadResult.fail) :: [((0 : ℚ), ReadResult.ok 3)])
        0 0
      = generate_frames none 50 id (fun (_ : Int) (f : Nat) => some [f])
          ([((0 : ℚ), (1 : Nat)), ((0 : ℚ), (2 : Nat))].map
              (fun p => (p.1, ReadResult.ok p.2))
            ++ [((0 : ℚ), ReadResult.fail)]) 0 0 :=
  read_failure_terminates none 50 id (fun _ f => some [f])
    [(0, 1), (0, 2)] 0 [((0 : ℚ), ReadResult.ok 3)] (by decide)

/-- C4: a second `get_camera()` call without an intervening release,
after a first call that succeeded, returns exactly the handle the first
call returned, leaves the global unchanged, and constructs no new
`cv2.VideoCapture` (no reopen, no duplicate handle). -/
theorem get_camera_idempotent (openDevice openDevice2 : VideoCapture)
    (h : VideoCapture) (st : Option VideoCapture) (k : Nat)
    (hfirst : get_camera openDevice none = ⟨Except.ok h, st, k⟩) :
    get_camera openDevice2 st = ⟨Except.ok h, st, 0⟩ := by
  by_cases ho : openDevice.opened
  · have h1 : get_camera openDevice none
        = ⟨Except.ok { openDevice with bufferSize := some 1 },
           some { openDevice with bufferSize := some 1 }, 1⟩ := by
      simp [get_camera, ho]
    rw [h1] at hfirst
    injection hfirst with e1 e2 e3
    injection e1 with e1
    subst e1; subst e2
    rfl
  · have h1 : get_camera openDevice none
        = ⟨Except.error (CamError.deviceOpenFailed openDevice.device),
           some openDevice, 1⟩ := by
      simp [get_camera, ho]
    rw [h1] at hfirst
    injection hfirst with e1 e2 e3
    simp at e1

/-- Witness for C4 at a concrete device handle that opens successfully. -/
theorem get_camera_idempotent_witness :
    get_camera ⟨Sum.inl 0, true, none⟩
        (some ⟨Sum.inl 0, true, some 1⟩)
      = ⟨Except.ok ⟨Sum.inl 0, true, some 1⟩,
         some ⟨Sum.inl 0, true, some 1⟩, 0⟩ :=
  get_camera_idempotent ⟨Sum.inl 0, true, none⟩ ⟨Sum.inl 0, true, none⟩
    ⟨Sum.inl 0, true, some 1⟩ (some ⟨Sum.inl 0, true, some 1⟩) 1 rfl

/-- C5: a JPEG-encode failure on one frame is non-fatal: the segments
emitted from that point on are exactly the segments of the remaining
trace (nothing is emitted for the failing frame, no exception escapes,
and the subsequent frames still stream, from any pacing state), while
the frame counter still counted the successful read. -/
theorem encode_failure_skips_frame {Frame : Type} (fpsLimit : Option ℚ)
    (quality : Int) (resize : Frame → Frame)
    (imencode : Int → Frame → Option Bytes)
    (t : ℚ) (f : Frame) (rest : List (ℚ × ReadResult Frame))
    (last count last' count' : _)
    (henc : imencode quality (resize f) = none) :
    (generate_frames fpsLimit quality resize imencode
        ((t, ReadResult.ok f) :: rest) last count).segments
      = (generate_frames fpsLimit quality resize imencode
          rest last' count').segments
    ∧ (generate_frames fpsLimit quality resize imencode
        ((t, ReadResult.ok f) :: rest) last count).frameCount
      = count + 1 + (consumedFrames rest).length := by
  constructor
  · rw [generate_frames_segments, generate_frames_segments]
    simp [consumedFrames, List.filterMap_cons, henc]
  · rw [generate_frames_frameCount]
    simp only [consumedFrames, List.length_cons]
    omega

/-- Witness for C5: frame 0 fails to encode, frame 5 follows and still
streams. -/
theorem encode_failure_skips_frame_witness :
    (generate_frames none 50 id
        (fun (_ : Int) (f : Nat) => if f = 0 then none else some [f])
        (((0 : ℚ), ReadResult.ok (0 : Nat)) :: [((0 : ℚ), ReadResult.ok 5)])
        0 0).segments
      = (generate_frames none 50 id
          (fun (_ : Int) (f : Nat) => if f = 0 then none else some [f])
          [((0 : ℚ), ReadResult.ok 5)] 0 1).segments
    ∧ (generate_frames none 50 id
        (fun (_ : Int) (f : Nat) => if f = 0 then none else some [f])
        (((0 : ℚ), ReadResult.ok (0 : Nat)) :: [((0 : ℚ), ReadResult.ok 5)])
        0 0).frameCount
      = 0 + 1 + (consumedFrames [((0 : ℚ), ReadResult.ok (5 : Nat))]).length :=
  encode_failure_skips_frame none 50 id
    (fun _ f => if f = 0 then none else some [f])
    0 0 [((0 : ℚ), ReadResult.ok 5)] 0 0 0 1 (by decide)

/-- C6: pacing, for a configured cap F > 0: when the elapsed time since
the previous pacing timestamp is below 1/F the requested sleep is
exactly the difference, otherwise no sleep; with no cap the pacing step
is the identity and the loop never sleeps; and pacing never changes
which segments are emitted or how many frames are counted (it only
inserts delay, it never drops or skips frames). -/
theorem fps_pacing {Frame : Type} (F : ℚ) (quality : Int)
    (resize : Frame → Frame) (imencode : Int → Frame → Option Bytes)
    (hF : 0 < F) :
    (∀ last t : ℚ, t - last < 1 / F →
        (fpsPace (some F) last t).1 = 1 / F - (t - last))
    ∧ (∀ last t : ℚ, 1 / F ≤ t - last → (fpsPace (some F) last t).1 = 0)
    ∧ (∀ last t : ℚ, fpsPace none last t = (0, last))
    ∧ (∀ (trace : List (ℚ × ReadResult Frame)) (last last' : ℚ) (count : Nat),
        (generate_frames (some F) quality resize imencode
            trace last count).segments
          = (generate_frames none quality resize imencode
              trace last' count).segments
        ∧ (generate_frames (some F) quality resize imencode
            trace last count).frameCount
          = (generate_frames none quality resize imencode
              trace last' count).frameCount)
    ∧ (∀ (trace : List (ℚ × ReadResult Frame)) (last : ℚ) (count : Nat),
        (generate_frames none quality resize imencode
            trace last count).totalSleep = 0) := by
  refine ⟨?_, ?_, ?_, ?_, ?_⟩
  · intro last t hlt
    rw [fpsPace_some F hF.ne']
    simp only [if_pos hlt]
  · intro last t hge
    rw [fpsPace_some F hF.ne']
    simp only [if_neg (not_lt.mpr hge)]
  · intro last t; rfl
  · intro trace last last' count
    constructor
    · rw [generate_frames_segments, generate_frames_segments]
    · rw [generate_frames_frameCount, generate_frames_frameCount]
  · exact generate_frames_totalSleep_none quality resize imencode

/-- Witness for C6 at cap F = 10, elapsed 1/20 below the interval 1/10,
and a one-frame trace. -/
theorem fps_pacing_witness :
    (fpsPace (some 10) 0 (1 / 20)).1 = 1 / 10 - (1 / 20 - 0)
    ∧ (fpsPace (some 10) 0 1).1 = 0
    ∧ fpsPace none 0 1 = (0, 0)
    ∧ ((generate_frames (some 10) 50 id (fun (_ : Int) (f : Nat) => some [f])
          [((0 : ℚ), ReadResult.ok 1)] 0 0).segments
        = (generate_frames none 50 id (fun (_ : Int) (f : Nat) => some [f])
            [((0 : ℚ), ReadResult.ok 1)] 0 0).segments
      ∧ (generate_frames (some 10) 50 id (fun (_ : Int) (f : Nat) => some [f])
          [((0 : ℚ), ReadResult.ok 1)] 0 0).frameCount
        = (generate_frames none 50 id (fun (_ : Int) (f : Nat) => some [f])
            [((0 : ℚ), ReadResult.ok 1)] 0 0).frameCount)
    ∧ (generate_frames none 50 id (fun (_ : Int) (f : Nat) => some [f])
        [((0 : ℚ), ReadResult.ok 1)] 0 0).totalSleep = 0 := by
  obtain ⟨h1, h2, h3, h4, h5⟩ :=
    @fps_pacing Nat 10 50 id (fun _ f => some [f]) (by norm_num)
  exact ⟨h1 0 (1 / 20) (by norm_num), h2 0 1 (by norm_num), h3 0 1,
         h4 [((0 : ℚ), ReadResult.ok 1)] 0 0 0,
         h5 [((0 : ℚ), ReadResult.ok 1)] 0 0⟩

/-- C7 counterexample: the claim says every accepted configuration has a
quality in 1..100, but argparse performs no range check: the command
line supplying quality 0 is accepted and the encode step is handed
quality 0, which is below 1. -/
theorem quality_unvalidated_counterexample :
    (mkConfig { emptyCmdLine with quality := some 0 }).quality = 0
    ∧ ¬(1 ≤ (mkConfig { emptyCmdLine with quality := some 0 }).quality
        ∧ (mkConfig { emptyCmdLine with quality := some 0 }).quality ≤ 100) :=
  ⟨rfl, by decide⟩

/-- C7 amended: the default quality 50 lies in 1..100, and whenever the
supplied quality lies in 1..100 (or is absent), the quality the encode
step uses lies in 1..100; the range is not validated, so nothing more
holds. -/
theorem quality_in_range_when_supplied_in_range (c : CmdLine)
    (h : ∀ q, c.quality = some q → 1 ≤ q ∧ q ≤ 100) :
    1 ≤ (mkConfig c).quality ∧ (mkConfig c).quality ≤ 100 := by
  cases hq : c.quality with
  | none => simp [mkConfig, parse_args, hq]
  | some q =>
    have hr := h q hq
    simp only [mkConfig, parse_args, hq, Option.getD_some]
    exact hr

/-- Witness for the amended C7 at the empty command line (quality
defaulted to 50). -/
theorem quality_in_range_witness :
    1 ≤ (mkConfig emptyCmdLine).quality
    ∧ (mkConfig emptyCmdLine).quality ≤ 100 :=
  quality_in_range_when_supplied_in_range emptyCmdLine
    (fun q hq => by simp [emptyCmdLine] at hq)

/-- C8: with no option supplied, the process configuration is device
index 0, quality 50, width 640, height 480, no FPS cap (rate limiting
disabled), host "0.0.0.0", port 5000, debug off; it is a single
immutable value computed once from the command line. -/
theorem default_config :
    mkConfig emptyCmdLine
      = ⟨Sum.inl 0, 50, 640, 480, none, "0.0.0.0", 5000, false⟩ := by
  decide

/-- C9: the per-session frame counter counts exactly the successful
reads the loop consumed (including frames later dropped by an encode
failure); the number of emitted segments never exceeds it, with equality
precisely when every consumed frame encoded successfully. -/
theorem frame_counter_invariant {Frame : Type} (fpsLimit : Option ℚ)
    (quality : Int) (resize : Frame → Frame)
    (imencode : Int → Frame → Option Bytes)
    (trace : List (ℚ × ReadResult Frame)) (last : ℚ) :
    (generate_frames fpsLimit quality resize imencode
        trace last 0).frameCount
      = (consumedFrames trace).length
    ∧ (generate_frames fpsLimit quality resize imencode
        trace last 0).segments.length
      ≤ (generate_frames fpsLimit quality resize imencode
          trace last 0).frameCount
    ∧ ((generate_frames fpsLimit quality resize imencode
          trace last 0).segments.length
        = (generate_frames fpsLimit quality resize imencode
            trace last 0).frameCount
      ↔ ∀ f ∈ consumedFrames trace, (imencode quality (resize f)).isSome) := by
  have hseg := generate_frames_segments fpsLimit quality resize imencode
    trace last 0
  have hcnt := generate_frames_frameCount fpsLimit quality resize imencode
    trace last 0
  have hiff : ∀ f : Frame,
      ((imencode quality (resize f)).map mkSegment).isSome
        ↔ (imencode quality (resize f)).isSome := by
    intro f; cases imencode quality (resize f) <;> simp
  refine ⟨by rw [hcnt]; omega, ?_, ?_⟩
  · rw [hseg, hcnt]
    have := List.length_filterMap_le
      (fun f => (imencode quality (resize f)).map mkSegment)
      (consumedFrames trace)
    omega
  · rw [hseg, hcnt, Nat.zero_add, length_filterMap_eq_iff]
    exact ⟨fun hl f hf => (hiff f).mp (hl f hf),
           fun hr f hf => (hiff f).mpr (hr f hf)⟩

/-- Witness for C9 at a two-read trace whose second frame fails to
encode: the counter reaches 2, one segment is emitted, and the equality
side of the iff is false. -/
theorem frame_counter_invariant_witness :
    (generate_frames none 50 id
        (fun (_ : Int) (f : Nat) => if f = 0 then none else some [f])
        [((0 : ℚ), ReadResult.ok 1), ((0 : ℚ), ReadResult.ok 0)] 0 0).frameCount
      = (consumedFrames
          [((0 : ℚ), ReadResult.ok (1 : Nat)), ((0 : ℚ), ReadResult.ok 0)]).length
    ∧ (generate_frames none 50 id
        (fun (_ : Int) (f : Nat) => if f = 0 then none else some [f])
        [((0 : ℚ), ReadResult.ok 1), ((0 : ℚ), ReadResult.ok 0)] 0 0).segments.length
      ≤ (generate_frames none 50 id
          (fun (_ : Int) (f : Nat) => if f = 0 then none else some [f])
          [((0 : ℚ), ReadResult.ok 1), ((0 : ℚ), ReadResult.ok 0)] 0 0).frameCount
    ∧ ((generate_frames none 50 id
          (fun (_ : Int) (f : Nat) => if f = 0 then none else some [f])
          [((0 : ℚ), ReadResult.ok 1), ((0 : ℚ), ReadResult.ok 0)] 0 0).segments.length
        = (generate_frames none 50 id
            (fun (_ : Int) (f : Nat) => if f = 0 then none else some [f])
            [((0 : ℚ), ReadResult.ok 1), ((0 : ℚ), ReadResult.ok 0)] 0 0).frameCount
      ↔ ∀ f ∈ consumedFrames
            [((0 : ℚ), ReadResult.ok (1 : Nat)), ((0 : ℚ), ReadResult.ok 0)],
          ((fun (_ : Int) (f : Nat) => if f = 0 then none else some [f]) 50
              (id f)).isSome) :=
  frame_counter_invariant none 50 id
    (fun _ f => if f = 0 then none else some [f])
    [((0 : ℚ), ReadResult.ok 1), ((0 : ℚ), ReadResult.ok 0)] 0

/-- C10: in stream mode, a missing remote or local argument makes the
program exit with the error message, and no remote command runs. -/
theorem stream_mode_missing_args (a : StreamArgs)
    (h : a.remote = none ∨ a.localIp = none) :
    stream_mode a
        = RunOutcome.exitError "stream mode requires --remote and --local"
    ∧ ∀ cmds, stream_mode a ≠ RunOutcome.commands cmds := by
  have hguard : (!pyTruthy a.remote || !pyTruthy a.localIp) = true := by
    rcases h with h | h <;> simp [pyTruthy, h]
  constructor
  · simp [stream_mode, hguard]
  · intro cmds hc
    simp [stream_mode, hguard] at hc

/-- Witness for C10: remote missing, local supplied. -/
theorem stream_mode_missing_args_witness :
    stream_mode ⟨none, some "10.0.0.2", "5000", false⟩
        = RunOutcome.exitError "stream mode requires --remote and --local"
    ∧ ∀ cmds, stream_mode ⟨none, some "10.0.0.2", "5000", false⟩
        ≠ RunOutcome.commands cmds :=
  stream_mode_missing_args ⟨none, some "10.0.0.2", "5000", false⟩
    (Or.inl rfl)

end CameraFeed
